import Mathlib

/-!
# Verification of the classroom-optimizer constraint tools

Shallow embedding of `src/tools/optimizer_tools.py` (functions
`validate_constraints`, `optimize_seating`, `explain_solution`) and proofs
about the specification's claims.

Python dictionaries whose key set varies are embedded as association lists
of `String × JVal` (a small JSON-style value type), so that the presence or
absence of a key in a returned dictionary is directly statable.  Dictionaries
whose key set is fixed are embedded as Lean structures.  The external CP-SAT
solver is not part of the repository; it is abstracted as a `SolverOutcome`
parameter (a status, a valuation of the Boolean seat variables, and an opaque
wall-time value), and `optimize_seating` is modelled as a function of that
outcome.  Python runtime exceptions (`KeyError` from indexing the `seats`
dictionary with a key that was never created) are modelled with `Except`.
-/

namespace ClassroomOptimizer

/-- A JSON-style value, used to embed Python dictionaries whose key set is
data-dependent (the return values of `optimize_seating`). -/
inductive JVal where
  | null : JVal
  | bool : Bool → JVal
  | int : Int → JVal
  | str : String → JVal
  | arr : List JVal → JVal
  | obj : List (String × JVal) → JVal
deriving Repr

/-- Key lookup in an embedded Python dictionary (first binding wins; the
embedded dictionaries never repeat a key). -/
def jget (kvs : List (String × JVal)) (k : String) : Option JVal :=
  List.lookup k kvs

/-- A student record `{'id': ..., 'name': ...}`. -/
structure Student where
  id : Nat
  name : String
deriving Repr, DecidableEq

/-- The wire shape of a constraint dictionary: a `type` key (possibly
absent, since the code reads it with `.get`) and the optional student id
keys `student`, `student1`, `student2`. -/
structure Constraint where
  type : Option String := none
  student : Option Nat := none
  student1 : Option Nat := none
  student2 : Option Nat := none
deriving Repr, DecidableEq

/-- The `classroom_size` / `classroom_layout` dictionary: `rows` and
`columns` keys, each possibly absent (the code reads them with `.get` and a
default).  Values are integers, which in Python may be negative. -/
structure ClassroomSize where
  rows : Option Int := none
  columns : Option Int := none
deriving Repr, DecidableEq

/-- The `info` sub-dictionary of a validation report (fixed key set). -/
structure ValidationInfo where
  total_seats : Int
  students : Int
  available_seats : Int
deriving Repr, DecidableEq

/-- The validation report built by `validate_constraints`.  The keys
`valid`, `warnings`, `errors`, `info` are written unconditionally when the
dictionary is created; the key `constraint_summary` is only written on the
path that is not short-circuited by the capacity check, so it is embedded as
an `Option` (`none` = key absent from the returned dictionary). -/
structure ValidationResult where
  valid : Bool
  warnings : List String
  errors : List String
  info : ValidationInfo
  constraint_summary : Option (List (String × Nat))
deriving Repr, DecidableEq

/-- The capacity error message
`f"Not enough seats: {num_students} students need {total_seats} seats"`. -/
def notEnoughSeatsMsg (numStudents totalSeats : Int) : String :=
  "Not enough seats: " ++ toString numStudents ++ " students need " ++
    toString totalSeats ++ " seats"

/-- The front-row capacity warning
`f"Front row has only {columns} seats but {front_row_requirements} students require it"`. -/
def frontRowWarning (columns : Int) (frontRowRequirements : Nat) : String :=
  "Front row has only " ++ toString columns ++ " seats but " ++
    toString frontRowRequirements ++ " students require it"

/-- The back-row warning (a fixed string in the code). -/
def backRowWarning : String :=
  "Too many students excluding back row - may be difficult to satisfy"

/-- The Python loop `constraint_counts[t] = constraint_counts.get(t, 0) + 1`
on an insertion-ordered dictionary, embedded as an association list. -/
def tally (counts : List (String × Nat)) (k : String) : List (String × Nat) :=
  match counts with
  | [] => [(k, 1)]
  | (k', n) :: rest =>
    if k' = k then (k', n + 1) :: rest else (k', n) :: tally rest k

/-- The constraint-type tally accumulated by the loop in
`validate_constraints` (each constraint contributes
`constraint.get('type', 'unknown')`). -/
def constraintCounts (cs : List Constraint) : List (String × Nat) :=
  cs.foldl (fun m c => tally m (c.type.getD "unknown")) []

/-- The counter for one constraint type accumulated by the same loop
(`front_row_requirements` / `back_row_exclusions`). -/
def countType (cs : List Constraint) (t : String) : Nat :=
  cs.foldl (fun acc c => if c.type.getD "unknown" = t then acc + 1 else acc) 0

/-- Embedding of `validate_constraints` (optimizer_tools.py lines 12-80).
The function is pure and never invokes the solver: it contains no reference
to the model builder or to a solver outcome. -/
def validate_constraints (classroom_size : ClassroomSize) (num_students : Int)
    (constraints : List Constraint) : ValidationResult :=
  let rows := classroom_size.rows.getD 0
  let columns := classroom_size.columns.getD 0
  let total_seats := rows * columns
  let info : ValidationInfo :=
    { total_seats := total_seats, students := num_students,
      available_seats := total_seats - num_students }
  if num_students > total_seats then
    { valid := false, warnings := [],
      errors := [notEnoughSeatsMsg num_students total_seats],
      info := info, constraint_summary := none }
  else
    let front_row_requirements := countType constraints "must_front_row"
    let back_row_exclusions := countType constraints "cannot_back_row"
    let warnings :=
      (if (front_row_requirements : Int) > columns then
        [frontRowWarning columns front_row_requirements] else []) ++
      (if (back_row_exclusions : Int) + front_row_requirements >
          (rows - 1) * columns then [backRowWarning] else [])
    { valid := true, warnings := warnings, errors := [], info := info,
      constraint_summary := some (constraintCounts constraints) }

/-- A Boolean seat variable of the CP-SAT model, identified by the key
under which the code stores it in the `seats` dictionary:
`(student_id, row, col)`.  Row and column are kept as integers because the
code can compute negative indices (`rows - 1` when `rows = 0`). -/
def Var := Nat × Int × Int
deriving Repr, DecidableEq

/-- One constraint added to the CP-SAT model (`model.Add(sum(...) == n)`,
`model.Add(sum(...) <= n)`, `model.AddBoolOr([a.Not(), b.Not()])`). -/
inductive CpCstr where
  | sumEq : List Var → Nat → CpCstr
  | sumLe : List Var → Nat → CpCstr
  | orNot : Var → Var → CpCstr
deriving Repr, DecidableEq

/-- Looking up `seats[(student_id, row, col)]`.  The dictionary holds a key
exactly for each listed student id and each in-range row and column, so any
other index (unknown student id, a missing `student` key read as `None`, or
an out-of-range row/column) raises `KeyError`, modelled as `Except.error`. -/
def seatVar (studentIds : List Nat) (rows columns : Int) (sid : Option Nat)
    (r c : Int) : Except String Var :=
  match sid with
  | none => .error "KeyError"
  | some i =>
    if studentIds.contains i && decide (0 ≤ r) && decide (r < rows) &&
        decide (0 ≤ c) && decide (c < columns) then
      .ok (i, r, c)
    else
      .error "KeyError"

/-- All grid cells in row-major order, as the Python nested loops
`for row in range(rows): for col in range(columns)` produce them
(`range` of a non-positive bound is empty). -/
def gridCells (rows columns : Int) : List (Nat × Nat) :=
  (List.range rows.toNat).flatMap fun r =>
    (List.range columns.toNat).map fun c => (r, c)

/-- The up-to-8 Chebyshev-adjacent cells of `(row, col)`, clipped at the
grid edges, in the order the Python loop over `dr, dc in [-1,0,1]`
enumerates them. -/
def adjacentCells (rows columns : Int) (row col : Nat) : List (Int × Int) :=
  ([-1, 0, 1] : List Int).flatMap fun dr =>
    ([-1, 0, 1] : List Int).filterMap fun dc =>
      if dr = 0 ∧ dc = 0 then none
      else
        let newRow := (row : Int) + dr
        let newCol := (col : Int) + dc
        if 0 ≤ newRow ∧ newRow < rows ∧ 0 ≤ newCol ∧ newCol < columns then
          some (newRow, newCol)
        else none

/-- The `cannot_sit_together` branch of the builder loop: for every cell and
every adjacent cell, add `AddBoolOr([s1 here .Not(), s2 there .Not()])`. -/
def cannotSitTogetherCstrs (studentIds : List Nat) (rows columns : Int)
    (s1 s2 : Option Nat) : Except String (List CpCstr) := do
  let nested ← (gridCells rows columns).mapM fun rc => do
    (adjacentCells rows columns rc.1 rc.2).mapM fun adj => do
      let v1 ← seatVar studentIds rows columns s1 rc.1 rc.2
      let v2 ← seatVar studentIds rows columns s2 adj.1 adj.2
      pure (CpCstr.orNot v1 v2)
  pure nested.flatten

/-- The model constraints contributed by one declared constraint
(optimizer_tools.py lines 129-186).  The `near_door` and `near_window`
branches execute `pass`; a `type` value matching no branch (including an
absent `type` key) falls through the `elif` chain and contributes
nothing. -/
def applyOne (studentIds : List Nat) (rows columns : Int) (c : Constraint) :
    Except String (List CpCstr) :=
  match c.type with
  | some "cannot_sit_together" =>
    cannotSitTogetherCstrs studentIds rows columns c.student1 c.student2
  | some "must_front_row" => do
    let vs ← (List.range columns.toNat).mapM fun col =>
      seatVar studentIds rows columns c.student 0 (col : Int)
    pure [CpCstr.sumEq vs 1]
  | some "cannot_back_row" => do
    let vs ← (List.range columns.toNat).mapM fun col =>
      seatVar studentIds rows columns c.student (rows - 1) (col : Int)
    pure [CpCstr.sumEq vs 0]
  | some "near_door" => .ok []
  | some "near_window" => .ok []
  | some "cannot_by_window" => do
    let vs ← (List.range rows.toNat).mapM fun r =>
      seatVar studentIds rows columns c.student (r : Int) (columns - 1)
    pure [CpCstr.sumEq vs 0]
  | some "cannot_by_door" => do
    let vs ← (List.range rows.toNat).mapM fun r =>
      seatVar studentIds rows columns c.student (r : Int) 0
    pure [CpCstr.sumEq vs 0]
  | _ => .ok []

/-- The assignment constraints the builder always adds: each student in
exactly one seat, each seat holding at most one student. -/
def assignmentCstrs (students : List Student) (rows columns : Int) :
    List CpCstr :=
  (students.map fun st =>
    CpCstr.sumEq ((gridCells rows columns).map fun rc =>
      (st.id, (rc.1 : Int), (rc.2 : Int))) 1) ++
  ((gridCells rows columns).map fun rc =>
    CpCstr.sumLe (students.map fun st => (st.id, (rc.1 : Int), (rc.2 : Int))) 1)

/-- The full CP-SAT model built by `optimize_seating` before solving:
assignment constraints plus the contribution of each declared constraint in
order.  A `KeyError` raised while indexing `seats` aborts the build. -/
def buildModel (students : List Student) (rows columns : Int)
    (constraints : List Constraint) : Except String (List CpCstr) := do
  let custom ← constraints.mapM
    (applyOne (students.map Student.id) rows columns)
  pure (assignmentCstrs students rows columns ++ custom.flatten)

/-- Status values of the external CP-SAT solver. -/
inductive CpStatus where
  | optimal
  | feasible
  | infeasible
  | unknown
  | modelInvalid
deriving Repr, DecidableEq

/-- The outcome of one call to the external solver, abstracted: its status,
the value `solver.Value(...)` assigns to each seat variable key, and the
opaque wall time `solver.WallTime()`. -/
structure SolverOutcome where
  status : CpStatus
  value : Nat → Nat → Nat → Bool
  wallTime : JVal

/-- Solution extraction (optimizer_tools.py lines 194-204): start from an
all-`None` grid and, iterating students then cells in row-major order, place
a student in each cell whose variable the solver valued true. -/
def extractChart (students : List Student) (rows columns : Int)
    (value : Nat → Nat → Nat → Bool) : List (List (Option Student)) :=
  let init : List (List (Option Student)) :=
    (List.range rows.toNat).map fun _ =>
      (List.range columns.toNat).map fun _ => none
  students.foldl (fun chart st =>
    (gridCells rows columns).foldl (fun ch rc =>
      if value st.id rc.1 rc.2 then
        ch.set rc.1 ((ch.getD rc.1 []).set rc.2 (some st))
      else ch) chart) init

/-- Serialization of a seating chart into the returned JSON-style value. -/
def chartToJson (chart : List (List (Option Student))) : JVal :=
  .arr (chart.map fun row => .arr (row.map fun cell =>
    match cell with
    | some st => .obj [("id", .int st.id), ("name", .str st.name)]
    | none => .null))

/-- The `statistics` dictionary of a successful result
(optimizer_tools.py lines 211-214): exactly the keys
`solve_time_seconds` (the solver's wall time) and `constraints_satisfied`
(the length of the input constraint list). -/
def statisticsDict (wallTime : JVal) (numConstraints : Nat) :
    List (String × JVal) :=
  [("solve_time_seconds", wallTime), ("constraints_satisfied", .int numConstraints)]

/-- The fixed message of an infeasible result. -/
def infeasibleMsg : String :=
  "Could not find a valid seating arrangement with the given constraints. Try relaxing some constraints."

/-- Embedding of `optimize_seating` (optimizer_tools.py lines 83-222),
parametric in the external solver's outcome.  Model building happens before
the solver is consulted, so a `KeyError` during building aborts the call
(`Except.error`); otherwise the function returns one of the two result
dictionaries the code constructs. -/
def optimize_seating (classroom_layout : ClassroomSize)
    (students : List Student) (constraints : List Constraint)
    (outcome : SolverOutcome) : Except String (List (String × JVal)) :=
  let rows := classroom_layout.rows.getD 5
  let columns := classroom_layout.columns.getD 6
  match buildModel students rows columns constraints with
  | .error e => .error e
  | .ok _model =>
    if outcome.status = CpStatus.optimal ∨ outcome.status = CpStatus.feasible then
      let chart := extractChart students rows columns outcome.value
      .ok [("success", .bool true),
           ("status", .str (if outcome.status = CpStatus.optimal then "optimal"
                            else "feasible")),
           ("seating_chart", chartToJson chart),
           ("layout", .obj [("rows", .int rows), ("columns", .int columns)]),
           ("statistics", .obj (statisticsDict outcome.wallTime
             constraints.length))]
    else
      .ok [("success", .bool false),
           ("status", .str "infeasible"),
           ("message", .str infeasibleMsg),
           ("seating_chart", .null)]

/-- One explanation entry appended by `explain_solution` (fixed key set
`constraint`, `satisfied`, `explanation`). -/
structure Explanation where
  constraint : String
  satisfied : Bool
  explanation : String
deriving Repr, DecidableEq

/-- The Chebyshev distance the code computes between two chart positions:
`max(abs(pos1[0] - pos2[0]), abs(pos1[1] - pos2[1]))`. -/
def chebDist (p1 p2 : Nat × Nat) : Nat :=
  max ((p1.1 : Int) - p2.1).natAbs ((p1.2 : Int) - p2.2).natAbs

/-- The `student_positions` dictionary (optimizer_tools.py lines 245-250):
iterate the chart in row-major order over `range(rows) × range(columns)`
(with `columns` taken from the first row) and record the position of each
occupied cell's student id; a later occurrence overwrites an earlier one. -/
def studentPositions (chart : List (List (Option Student))) :
    Nat → Option (Nat × Nat) :=
  let rows := chart.length
  let columns := (chart.head?.map List.length).getD 0
  (List.range rows).foldl (fun acc r =>
    (List.range columns).foldl (fun acc2 c =>
      match (chart.getD r []).getD c none with
      | some st => fun j => if j = st.id then some (r, c) else acc2 j
      | none => acc2) acc)
    (fun _ => none)

/-- The explanation entry contributed by one constraint
(optimizer_tools.py lines 253-289).  Only the types `cannot_sit_together`,
`must_front_row` and `cannot_back_row` have a branch; every other type, and
any referenced student absent from the position dictionary (including a
missing student key, read as `None`), contributes no entry. -/
def explainOne (rows : Nat) (pos : Nat → Option (Nat × Nat)) (c : Constraint) :
    Option Explanation :=
  match c.type with
  | some "cannot_sit_together" =>
    match c.student1, c.student2 with
    | some s1, some s2 =>
      match pos s1, pos s2 with
      | some p1, some p2 =>
        some { constraint := "Students " ++ toString s1 ++ " and " ++
                 toString s2 ++ " cannot sit together",
               satisfied := decide (chebDist p1 p2 > 1),
               explanation := "They are " ++ toString (chebDist p1 p2) ++
                 " seats apart (row/col distance)" }
      | _, _ => none
    | _, _ => none
  | some "must_front_row" =>
    match c.student with
    | some s =>
      match pos s with
      | some p =>
        some { constraint := "Student " ++ toString s ++
                 " must sit in front row",
               satisfied := decide (p.1 = 0),
               explanation := "Seated in row " ++ toString (p.1 + 1) ++
                 ", column " ++ toString (p.2 + 1) }
      | none => none
    | none => none
  | some "cannot_back_row" =>
    match c.student with
    | some s =>
      match pos s with
      | some p =>
        some { constraint := "Student " ++ toString s ++
                 " cannot sit in back row",
               satisfied := decide ((p.1 : Int) < (rows : Int) - 1),
               explanation := "Seated in row " ++ toString (p.1 + 1) ++
                 " (not back row)" }
      | none => none
    | none => none
  | _ => none

/-- The report returned by `explain_solution` (fixed key set). -/
structure ExplainResult where
  all_constraints_satisfied : Bool
  total_constraints : Nat
  explanations : List Explanation
  summary : String
deriving Repr, DecidableEq

/-- Embedding of `explain_solution` (optimizer_tools.py lines 225-298).
The loop appends at most one entry per constraint, in input order, which is
exactly `List.filterMap`; `all(...)` of the entries' `satisfied` flags is
`True` on an empty list. -/
def explain_solution (seating_chart : List (List (Option Student)))
    (constraints : List Constraint) : ExplainResult :=
  let rows := seating_chart.length
  let pos := studentPositions seating_chart
  let explanations := constraints.filterMap (explainOne rows pos)
  { all_constraints_satisfied := explanations.all Explanation.satisfied,
    total_constraints := constraints.length,
    explanations := explanations,
    summary := "Successfully satisfied " ++
      toString (explanations.countP Explanation.satisfied) ++ " out of " ++
      toString constraints.length ++ " constraints" }

/-! ## Concrete fixtures used by witnesses and counterexamples -/

/-- Scenario 4 of the specification: a 3×3 chart with students 1 and 2
placed manually at Chebyshev distance exactly 1. -/
def scenario4Chart : List (List (Option Student)) :=
  [[some ⟨1, "A"⟩, some ⟨2, "B"⟩, none],
   [none, none, none],
   [none, none, none]]

/-- A 1×1 chart holding student 1. -/
def oneSeatChart : List (List (Option Student)) := [[some ⟨1, "A"⟩]]

/-! ## Helper lemmas -/

theorem data_append_eq (a b : String) : (a ++ b).data = a.data ++ b.data := rfl

/-- The front-row warning can never coincide with the (fixed) back-row
warning: their first characters differ. -/
theorem frontRowWarning_ne_backRowWarning (columns : Int) (k : Nat) :
    frontRowWarning columns k ≠ backRowWarning := by
  intro h
  have h2 := congrArg (fun s => s.data.head?) h
  simp only [frontRowWarning, backRowWarning, data_append_eq,
    List.append_assoc] at h2
  simp at h2

/-! ## Claims -/

/-- Claim C1: for every seating chart in which both students named by a
`cannot_sit_together` constraint are placed, `explain_solution` produces for
that constraint an entry whose `satisfied` flag is exactly the test
`Chebyshev distance > 1` (so distance exactly 1 yields `satisfied = false`,
as exercised by the witness below). -/
theorem cannot_sit_together_explained_iff_cheb_gt_one
    (chart : List (List (Option Student))) (s1 s2 : Nat) (p1 p2 : Nat × Nat)
    (h1 : studentPositions chart s1 = some p1)
    (h2 : studentPositions chart s2 = some p2) :
    explainOne chart.length (studentPositions chart)
      { type := some "cannot_sit_together", student1 := some s1,
        student2 := some s2 } =
      some { constraint := "Students " ++ toString s1 ++ " and " ++
               toString s2 ++ " cannot sit together",
             satisfied := decide (chebDist p1 p2 > 1),
             explanation := "They are " ++ toString (chebDist p1 p2) ++
               " seats apart (row/col distance)" } := by
  simp [explainOne, h1, h2]

/-- Witness for C1, Scenario 4 of the specification: students 1 and 2 at
Chebyshev distance exactly 1 in a 3×3 chart are reported unsatisfied. -/
theorem cannot_sit_together_explained_iff_cheb_gt_one_witness :
    explainOne scenario4Chart.length (studentPositions scenario4Chart)
      { type := some "cannot_sit_together", student1 := some 1,
        student2 := some 2 } =
      some { constraint := "Students 1 and 2 cannot sit together",
             satisfied := false,
             explanation := "They are 1 seats apart (row/col distance)" } := by
  rw [cannot_sit_together_explained_iff_cheb_gt_one scenario4Chart 1 2 (0, 0)
    (0, 1) (by decide) (by decide)]
  decide

/-- Claim C2: whenever `num_students > rows * columns`,
`validate_constraints` returns `valid = false` with the single error message
built from the student count and the seat count, and short-circuits: the
result carries no warnings and no `constraint_summary` key, and does not
depend on the constraint list at all.  (`validate_constraints` makes no
reference to the solver, so the solver is not invoked on this path.) -/
theorem validate_capacity_exceeded_short_circuits (size : ClassroomSize)
    (n : Int) (cs : List Constraint)
    (h : n > size.rows.getD 0 * size.columns.getD 0) :
    validate_constraints size n cs =
      { valid := false, warnings := [],
        errors := [notEnoughSeatsMsg n
          (size.rows.getD 0 * size.columns.getD 0)],
        info := { total_seats := size.rows.getD 0 * size.columns.getD 0,
                  students := n,
                  available_seats :=
                    size.rows.getD 0 * size.columns.getD 0 - n },
        constraint_summary := none } := by
  simp [validate_constraints, h]

/-- Witness for C2, Scenario 2 of the specification: one seat, two
students. -/
theorem validate_capacity_exceeded_short_circuits_witness :
    (2 : Int) > 1 * 1 ∧
    validate_constraints ⟨some 1, some 1⟩ 2
        [{ type := some "must_front_row", student := some 1 }] =
      { valid := false, warnings := [],
        errors := ["Not enough seats: 2 students need 1 seats"],
        info := { total_seats := 1, students := 2, available_seats := -1 },
        constraint_summary := none } := by
  refine ⟨by decide, ?_⟩
  rw [validate_capacity_exceeded_short_circuits ⟨some 1, some 1⟩ 2
    [{ type := some "must_front_row", student := some 1 }] (by decide)]
  decide

/-- Counterexample to claim C3: a 0×0 classroom with zero students and a
constraint referencing student id 99 (present in no student set).  The
validator answers `valid = true` with an empty error list, and
`optimize_seating` (here with the solver reporting infeasibility) returns
its ordinary infeasibility dictionary; neither result carries any
structural input error about the unknown id or the zero dimensions. -/
theorem structural_errors_not_reported_counterexample :
    validate_constraints ⟨some 0, some 0⟩ 0
        [{ type := some "must_front_row", student := some 99 }] =
      { valid := true,
        warnings := ["Front row has only 0 seats but 1 students require it",
          "Too many students excluding back row - may be difficult to satisfy"],
        errors := [],
        info := { total_seats := 0, students := 0, available_seats := 0 },
        constraint_summary := some [("must_front_row", 1)] } ∧
    optimize_seating ⟨some 0, some 0⟩ []
        [{ type := some "must_front_row", student := some 99 }]
        { status := CpStatus.infeasible, value := fun _ _ _ => false,
          wallTime := JVal.null } =
      .ok [("success", JVal.bool false), ("status", JVal.str "infeasible"),
           ("message", JVal.str infeasibleMsg),
           ("seating_chart", JVal.null)] :=
  ⟨by decide, rfl⟩

/-- Claim C3, amended: the code performs no structural input checks.  The
only error `validate_constraints` can ever report is the capacity error
(its error list is empty on every other input, whatever the constraints or
dimensions), and a result returned by `optimize_seating` never carries an
error entry: it has no `errors` key and its only possible `message` is the
fixed infeasibility text.  (A constraint referencing an unknown student id
inside a non-empty grid makes model building raise `KeyError` — an uncaught
exception, not a reported error in a result.) -/
theorem structural_errors_not_reported_amended :
    (∀ (size : ClassroomSize) (n : Int) (cs : List Constraint),
      (validate_constraints size n cs).errors =
        if n > size.rows.getD 0 * size.columns.getD 0 then
          [notEnoughSeatsMsg n (size.rows.getD 0 * size.columns.getD 0)]
        else []) ∧
    (∀ (layout : ClassroomSize) (students : List Student)
        (cs : List Constraint) (outcome : SolverOutcome)
        (res : List (String × JVal)),
      optimize_seating layout students cs outcome = .ok res →
        jget res "errors" = none ∧
        (jget res "message" = none ∨
          jget res "message" = some (.str infeasibleMsg))) := by
  constructor
  · intro size n cs
    by_cases h : n > size.rows.getD 0 * size.columns.getD 0 <;>
      simp [validate_constraints, h]
  · intro layout students cs outcome res h
    simp only [optimize_seating] at h
    split at h
    · exact Except.noConfusion h
    · split at h
      · cases h
        exact ⟨rfl, Or.inl rfl⟩
      · cases h
        exact ⟨rfl, Or.inr rfl⟩

/-- Witness for the amended C3: applying the second component to a concrete
call whose solver outcome is `unknown`. -/
theorem structural_errors_not_reported_amended_witness :
    jget [("success", JVal.bool false), ("status", JVal.str "infeasible"),
          ("message", JVal.str infeasibleMsg),
          ("seating_chart", JVal.null)] "errors" = none ∧
    (jget [("success", JVal.bool false), ("status", JVal.str "infeasible"),
           ("message", JVal.str infeasibleMsg),
           ("seating_chart", JVal.null)] "message" = none ∨
      jget [("success", JVal.bool false), ("status", JVal.str "infeasible"),
            ("message", JVal.str infeasibleMsg),
            ("seating_chart", JVal.null)] "message" =
        some (.str infeasibleMsg)) :=
  structural_errors_not_reported_amended.2 ⟨some 2, some 2⟩ [] []
    { status := CpStatus.unknown, value := fun _ _ _ => false,
      wallTime := JVal.null } _ rfl

/-- Counterexample to claim C4: in the capacity-exceeded case (1 seat, 2
students) the returned report has no `constraint_summary` key. -/
theorem report_always_has_summary_counterexample :
    (validate_constraints ⟨some 1, some 1⟩ 2 []).constraint_summary = none ∧
    (validate_constraints ⟨some 1, some 1⟩ 2 []).valid = false :=
  ⟨rfl, rfl⟩

/-- Claim C4, amended: the report always carries `valid`, `errors`,
`warnings` and `info` (they are unconditional fields of the result, and
`info` always holds the computed seat/student counts), but
`constraint_summary` is present exactly when the capacity check passes
(`num_students ≤ rows * columns`); the short-circuited capacity-exceeded
report lacks it. -/
theorem report_fields_amended (size : ClassroomSize) (n : Int)
    (cs : List Constraint) :
    ((validate_constraints size n cs).constraint_summary.isSome ↔
      n ≤ size.rows.getD 0 * size.columns.getD 0) ∧
    (validate_constraints size n cs).info =
      { total_seats := size.rows.getD 0 * size.columns.getD 0,
        students := n,
        available_seats := size.rows.getD 0 * size.columns.getD 0 - n } := by
  constructor
  · by_cases h : n > size.rows.getD 0 * size.columns.getD 0
    · simp [validate_constraints, h]
    · simp [validate_constraints, h]
      omega
  · by_cases h : n > size.rows.getD 0 * size.columns.getD 0 <;>
      simp [validate_constraints, h]

/-- Counterexample to claim C5: a call whose only constraint has the
unrecognized type `"quiet_zone"`.  The complete returned dictionary is shown:
it consists of exactly the keys `success`, `status`, `seating_chart`,
`layout` and `statistics` — no warning of any kind (in particular no
`unrecognized_constraint` warning) is reported back. -/
theorem unrecognized_constraint_no_warning_counterexample :
    optimize_seating ⟨some 1, some 1⟩ [⟨1, "A"⟩] [{ type := some "quiet_zone" }]
        { status := CpStatus.optimal, value := fun _ _ _ => true,
          wallTime := JVal.null } =
      .ok [("success", JVal.bool true), ("status", JVal.str "optimal"),
           ("seating_chart", JVal.arr [JVal.arr [JVal.obj
             [("id", JVal.int 1), ("name", JVal.str "A")]]]),
           ("layout", JVal.obj [("rows", JVal.int 1),
             ("columns", JVal.int 1)]),
           ("statistics", JVal.obj [("solve_time_seconds", JVal.null),
             ("constraints_satisfied", JVal.int 1)])] ∧
    jget [("success", JVal.bool true), ("status", JVal.str "optimal"),
          ("seating_chart", JVal.arr [JVal.arr [JVal.obj
            [("id", JVal.int 1), ("name", JVal.str "A")]]]),
          ("layout", JVal.obj [("rows", JVal.int 1),
            ("columns", JVal.int 1)]),
          ("statistics", JVal.obj [("solve_time_seconds", JVal.null),
            ("constraints_satisfied", JVal.int 1)])] "warnings" = none :=
  ⟨rfl, rfl⟩

/-- Claim C5, amended: the builder contributes no model constraint for a
constraint whose type is not one of the seven recognized types, and the
drop is silent — no result returned by `optimize_seating` ever carries a
`warnings` key. -/
theorem unrecognized_constraint_silently_dropped :
    (∀ (studentIds : List Nat) (rows columns : Int) (c : Constraint),
      c.type ∉ ([some "cannot_sit_together", some "must_front_row",
        some "cannot_back_row", some "near_door", some "near_window",
        some "cannot_by_window", some "cannot_by_door"] :
          List (Option String)) →
        applyOne studentIds rows columns c = .ok []) ∧
    (∀ (layout : ClassroomSize) (students : List Student)
        (cs : List Constraint) (outcome : SolverOutcome)
        (res : List (String × JVal)),
      optimize_seating layout students cs outcome = .ok res →
        jget res "warnings" = none) := by
  constructor
  · intro studentIds rows columns c h
    unfold applyOne
    split
    all_goals first
      | rfl
      | (exfalso; simp_all)
  · intro layout students cs outcome res h
    simp only [optimize_seating] at h
    split at h
    · exact Except.noConfusion h
    · split at h <;> (cases h; rfl)

/-- Witness for the amended C5: an unrecognized type contributes nothing to
the model, and a concrete result has no `warnings` key. -/
theorem unrecognized_constraint_silently_dropped_witness :
    applyOne [1] 1 1 { type := some "quiet_zone" } = .ok [] ∧
    jget [("success", JVal.bool false), ("status", JVal.str "infeasible"),
          ("message", JVal.str infeasibleMsg),
          ("seating_chart", JVal.null)] "warnings" = none :=
  ⟨unrecognized_constraint_silently_dropped.1 [1] 1 1
      { type := some "quiet_zone" } (by decide),
   unrecognized_constraint_silently_dropped.2 ⟨some 1, some 1⟩ [] []
      { status := CpStatus.infeasible, value := fun _ _ _ => false,
        wallTime := JVal.null } _ rfl⟩

/-- Counterexample to claim C6: a 1×1 chart in which student 1 is placed
(at column 0, which is both the door column and the window column), with a
single `cannot_by_window` constraint referencing that student.  The claim
requires an explanation entry recomputed from the seat position;
`explain_solution` produces no entry at all. -/
theorem window_door_not_explained_counterexample :
    studentPositions oneSeatChart 1 = some (0, 0) ∧
    (explain_solution oneSeatChart
        [{ type := some "cannot_by_window", student := some 1 }]).explanations
      = [] :=
  ⟨rfl, rfl⟩

/-- Claim C6, amended: `explain_solution` recomputes satisfaction only for
`cannot_sit_together`, `must_front_row` and `cannot_back_row`; a
`cannot_by_window` or `cannot_by_door` constraint contributes no
explanation entry, however its student is placed. -/
theorem window_door_not_explained (rows : Nat)
    (pos : Nat → Option (Nat × Nat)) (c : Constraint)
    (h : c.type = some "cannot_by_window" ∨ c.type = some "cannot_by_door") :
    explainOne rows pos c = none := by
  rcases h with h | h <;> simp [explainOne, h]

/-- Witness for the amended C6: the placed student of the counterexample
chart, under a `cannot_by_door` constraint. -/
theorem window_door_not_explained_witness :
    explainOne 1 (studentPositions oneSeatChart)
      { type := some "cannot_by_door", student := some 1 } = none :=
  window_door_not_explained 1 (studentPositions oneSeatChart)
    { type := some "cannot_by_door", student := some 1 } (Or.inr rfl)

/-- Counterexample to claim C7: a concrete successful solve.  The
`statistics` object of the result holds the wall time under
`solve_time_seconds` and the constraint count, but looking up
`nodes_explored` in it finds nothing. -/
theorem nodes_explored_not_reported_counterexample :
    optimize_seating ⟨some 1, some 1⟩ [⟨1, "A"⟩] []
        { status := CpStatus.optimal, value := fun _ _ _ => true,
          wallTime := JVal.str "0.002" } =
      .ok [("success", JVal.bool true), ("status", JVal.str "optimal"),
           ("seating_chart", JVal.arr [JVal.arr [JVal.obj
             [("id", JVal.int 1), ("name", JVal.str "A")]]]),
           ("layout", JVal.obj [("rows", JVal.int 1),
             ("columns", JVal.int 1)]),
           ("statistics", JVal.obj [("solve_time_seconds",
             JVal.str "0.002"), ("constraints_satisfied", JVal.int 0)])] ∧
    jget [("solve_time_seconds", JVal.str "0.002"),
          ("constraints_satisfied", JVal.int 0)] "nodes_explored" = none :=
  ⟨rfl, rfl⟩

/-- Claim C7, amended: the statistics object of a solve result (built by
`statisticsDict`, the embedding of optimizer_tools.py lines 211-214 and
the only statistics ever returned by `optimize_seating`) reports exactly
`solve_time_seconds` and `constraints_satisfied`; the solve time is
reported, but no `nodes_explored` count is. -/
theorem statistics_keys_amended (wallTime : JVal) (n : Nat) :
    (statisticsDict wallTime n).map Prod.fst =
      ["solve_time_seconds", "constraints_satisfied"] ∧
    jget (statisticsDict wallTime n) "solve_time_seconds" = some wallTime ∧
    jget (statisticsDict wallTime n) "nodes_explored" = none :=
  ⟨rfl, rfl, rfl⟩

/-- Claim C8: when the capacity pre-check passes (so the tally is reached),
the front-row capacity warning is in the report's warnings exactly when the
number of `must_front_row` constraints strictly exceeds `columns`. -/
theorem front_row_warning_iff_count_exceeds_columns (size : ClassroomSize)
    (n : Int) (cs : List Constraint)
    (h : n ≤ size.rows.getD 0 * size.columns.getD 0) :
    frontRowWarning (size.columns.getD 0) (countType cs "must_front_row") ∈
        (validate_constraints size n cs).warnings ↔
      (countType cs "must_front_row" : Int) > size.columns.getD 0 := by
  have hn : ¬ n > size.rows.getD 0 * size.columns.getD 0 := not_lt.mpr h
  by_cases hA :
      (countType cs "must_front_row" : Int) > size.columns.getD 0 <;>
    by_cases hB : (countType cs "cannot_back_row" : Int) +
        (countType cs "must_front_row" : Int) >
        (size.rows.getD 0 - 1) * size.columns.getD 0 <;>
      simp [validate_constraints, hn, hA, hB,
        frontRowWarning_ne_backRowWarning]

/-- Witness for C8, Scenario 3 (exceeding case) of the specification:
columns = 2, three `must_front_row` constraints, enough seats — the warning
is emitted. -/
theorem front_row_warning_iff_count_exceeds_columns_witness :
    (3 : Int) ≤ 2 * 2 ∧
    frontRowWarning 2
        (countType [{ type := some "must_front_row", student := some 1 },
                    { type := some "must_front_row", student := some 2 },
                    { type := some "must_front_row", student := some 3 }]
          "must_front_row") ∈
      (validate_constraints ⟨some 2, some 2⟩ 3
        [{ type := some "must_front_row", student := some 1 },
         { type := some "must_front_row", student := some 2 },
         { type := some "must_front_row", student := some 3 }]).warnings := by
  refine ⟨by decide, ?_⟩
  exact (front_row_warning_iff_count_exceeds_columns ⟨some 2, some 2⟩ 3
    [{ type := some "must_front_row", student := some 1 },
     { type := some "must_front_row", student := some 2 },
     { type := some "must_front_row", student := some 3 }]
    (by decide)).mpr (by decide)

/-- Claim C9: every successful `optimize_seating` result reports
`statistics.constraints_satisfied` equal to the length of the input
constraint list, whatever the constraints contain — soft preferences and
unrecognized types included, as the witness below exercises. -/
theorem constraints_satisfied_counts_all (layout : ClassroomSize)
    (students : List Student) (cs : List Constraint)
    (outcome : SolverOutcome) (res : List (String × JVal))
    (hres : optimize_seating layout students cs outcome = .ok res)
    (hsucc : jget res "success" = some (.bool true)) :
    jget res "statistics" =
      some (.obj [("solve_time_seconds", outcome.wallTime),
                  ("constraints_satisfied", .int cs.length)]) := by
  simp only [optimize_seating] at hres
  split at hres
  · exact Except.noConfusion hres
  · split at hres
    · cases hres
      rfl
    · cases hres
      have hv : jget [("success", JVal.bool false),
          ("status", JVal.str "infeasible"),
          ("message", JVal.str infeasibleMsg),
          ("seating_chart", JVal.null)] "success" =
            some (JVal.bool false) := rfl
      rw [hv] at hsucc
      simp at hsucc

/-- Witness for C9: a successful 1×1 solve with two constraints, one a soft
`near_door` preference (never enforced) and one of unrecognized type;
`constraints_satisfied` is 2. -/
theorem constraints_satisfied_counts_all_witness :
    jget [("success", JVal.bool true), ("status", JVal.str "optimal"),
          ("seating_chart", JVal.arr [JVal.arr [JVal.obj
            [("id", JVal.int 1), ("name", JVal.str "A")]]]),
          ("layout", JVal.obj [("rows", JVal.int 1),
            ("columns", JVal.int 1)]),
          ("statistics", JVal.obj [("solve_time_seconds", JVal.null),
            ("constraints_satisfied", JVal.int 2)])] "statistics" =
      some (.obj [("solve_time_seconds", JVal.null),
                  ("constraints_satisfied", JVal.int 2)]) :=
  constraints_satisfied_counts_all ⟨some 1, some 1⟩ [⟨1, "A"⟩]
    [{ type := some "near_door", student := some 1 },
     { type := some "mystery_type" }]
    { status := CpStatus.optimal, value := fun _ _ _ => true,
      wallTime := JVal.null }
    [("success", JVal.bool true), ("status", JVal.str "optimal"),
     ("seating_chart", JVal.arr [JVal.arr [JVal.obj
       [("id", JVal.int 1), ("name", JVal.str "A")]]]),
     ("layout", JVal.obj [("rows", JVal.int 1), ("columns", JVal.int 1)]),
     ("statistics", JVal.obj [("solve_time_seconds", JVal.null),
       ("constraints_satisfied", JVal.int 2)])] rfl rfl

/-- Claim C10: when no constraint yields an explanation entry,
`explain_solution` reports `all_constraints_satisfied = true` vacuously
(`all` of an empty list), while `total_constraints` is the full input
length and the summary counts 0 satisfied out of that total. -/
theorem vacuous_all_satisfied (chart : List (List (Option Student)))
    (cs : List Constraint)
    (h : (explain_solution chart cs).explanations = []) :
    (explain_solution chart cs).all_constraints_satisfied = true ∧
    (explain_solution chart cs).total_constraints = cs.length ∧
    (explain_solution chart cs).summary =
      "Successfully satisfied " ++ toString (0 : Nat) ++ " out of " ++
        toString cs.length ++ " constraints" := by
  have hf : cs.filterMap
      (explainOne chart.length (studentPositions chart)) = [] := h
  refine ⟨?_, rfl, ?_⟩ <;> simp [explain_solution, hf]

/-- Witness for C10: one placed student, one `near_door` constraint (a type
`explain_solution` does not handle): no entries, yet vacuously
all-satisfied, total 1, and a summary of 0 out of 1. -/
theorem vacuous_all_satisfied_witness :
    (explain_solution oneSeatChart
      [{ type := some "near_door", student := some 1 }]).all_constraints_satisfied
        = true ∧
    (explain_solution oneSeatChart
      [{ type := some "near_door", student := some 1 }]).total_constraints
        = 1 ∧
    (explain_solution oneSeatChart
      [{ type := some "near_door", student := some 1 }]).summary =
      "Successfully satisfied 0 out of 1 constraints" := by
  have h := vacuous_all_satisfied oneSeatChart
    [{ type := some "near_door", student := some 1 }] rfl
  exact ⟨h.1, h.2.1, h.2.2.trans (by decide)⟩

end ClassroomOptimizer
